import Mathlib

/-!
Shallow embedding of the SecondEye assistive-perception pipeline
(`app/agents/orchestrator.py`, `app/agents/agent2_vlm_direct.py`,
`app/agents/agent3_navigation.py`, `app/audio/tts.py`).

External collaborators (the STT/LLM/VLM calls, the HTTP transport and the
file system) are modelled as explicit inputs; Python's dynamically typed
JSON values are modelled by the inductive `Json` below, and a Python
exception that escapes a function is modelled by `Except PyError`.
-/

namespace SecondEye

/-- Python exceptions that the embedded code can raise. -/
inductive PyError where
  | valueError
  | attributeError
  | typeError
  | keyError
deriving DecidableEq

/-- A JSON value as produced by `json.loads`.  Numbers are modelled as
rationals (decimal literals are exact rationals); objects keep their
key/value pairs in order. -/
inductive Json where
  | null
  | bool (b : Bool)
  | num (q : ℚ)
  | str (s : String)
  | arr (elems : List Json)
  | obj (fields : List (String × Json))

/-- Python truthiness of a JSON value (`bool(x)`). -/
def Json.truthy : Json → Bool
  | .null => false
  | .bool b => b
  | .num q => q != 0
  | .str s => s != ""
  | .arr elems => !elems.isEmpty
  | .obj fields => !fields.isEmpty

/-- Is this JSON value a JSON object (a Python `dict`)? -/
def Json.isObj : Json → Bool
  | .obj _ => true
  | _ => false

/-- `x == s` for a JSON value `x` and a Python string literal `s`:
true exactly when `x` is that string. -/
def Json.isStrEq (j : Json) (s : String) : Bool :=
  match j with
  | .str t => t == s
  | _ => false

/-- First-match lookup in an association list (dicts produced by
`json.loads` have unique keys, so first-match agrees with `dict` lookup). -/
def lookupField (fields : List (String × Json)) (k : String) : Option Json :=
  match fields with
  | [] => none
  | (k', v) :: rest => if k' = k then some v else lookupField rest k

/-- `d[k]` on a JSON value: key lookup on objects (`KeyError` when the key
is absent), `TypeError` on every non-object. -/
def Json.index (j : Json) (k : String) : Except PyError Json :=
  match j with
  | .obj fields =>
    match lookupField fields k with
    | some v => .ok v
    | none => .error .keyError
  | _ => .error .typeError

/-- Reading a JSON value as a number for the geometry code.  Python lets
`bool` take part in arithmetic (`True == 1`); any other non-number raises
`TypeError` in the subsequent arithmetic, modelled as an error here. -/
def jsonNum (j : Json) : Except PyError ℚ :=
  match j with
  | .num q => .ok q
  | .bool b => .ok (if b then 1 else 0)
  | _ => .error .typeError

/-- The apostrophe character, used to build the literal texts of the
source without a quote-mark inside a string literal. -/
def apoc : Char := Char.ofNat 39

/-- The apostrophe as a one-character string. -/
def apos : String := String.mk [apoc]

/-- Substring test on character lists: does `pat` occur contiguously in
`s`?  (Python's `pat in s` on strings.) -/
def hasSublist (pat : List Char) : List Char → Bool
  | [] => pat.isEmpty
  | c :: rest => pat.isPrefixOf (c :: rest) || hasSublist pat rest

/-- Python `pat in s` for strings. -/
def strContains (s pat : String) : Bool :=
  hasSublist pat.data s.data

/-- Python `str.lower()` (ASCII model, matching the prompts of the
source). -/
def lowerStr (s : String) : String :=
  String.mk (s.data.map Char.toLower)

/-- Python `str.strip()`: drop leading and trailing whitespace. -/
def stripStr (s : String) : String :=
  String.mk (((s.data.dropWhile Char.isWhitespace).reverse.dropWhile Char.isWhitespace).reverse)

/-- Python `str(x)` as used in the f-strings of the source (only the
string case is exercised by the normal flow). -/
def Json.display : Json → String
  | .null => "None"
  | .bool b => if b then "True" else "False"
  | .num q => toString q
  | .str s => s
  | .arr _ => "[...]"
  | .obj _ => "..."

/-! ## ObjectSearch (`agent2_vlm_direct.search_object_in_frames`) -/

/-- One frame's model judgment: `text` is `response.content.strip()` and
`parsed` is the outcome of `json.loads` on it (`none` when that raises
`json.JSONDecodeError`). -/
structure FrameResponse where
  text : String
  parsed : Option Json

/-- Outcome of judging a single frame inside the search loop. -/
inductive FrameJudgment where
  | positive (desc : Json)
  | negative
  | err (e : PyError)

def FrameJudgment.isPositive : FrameJudgment → Bool
  | .positive _ => true
  | _ => false

/-- The negation phrases of the heuristic fallback, exactly as listed in
the source (lines 229-232 of `agent2_vlm_direct.py`). -/
def negationPhrases (target : String) : List String :=
  ["don" ++ apos ++ "t see", "do not see", "not see", "cannot see",
   "can" ++ apos ++ "t see", "no " ++ lowerStr target, "not visible"]

/-- The per-frame body of the search loop (lines 216-239): JSON parse of
the judgment, else the lower-case heuristic.  Only `json.JSONDecodeError`
is caught, so a parsed non-object value raises `AttributeError` at
`result.get`; a non-string target raises `AttributeError` at
`target_object.lower()` in the heuristic branch. -/
def judgeFrame (target : Json) (fr : FrameResponse) : FrameJudgment :=
  match fr.parsed with
  | some (Json.obj fields) =>
    match lookupField fields "found" with
    | some v =>
      if v.truthy then
        FrameJudgment.positive ((lookupField fields "description").getD (Json.str "Object found."))
      else
        FrameJudgment.negative
    | none => FrameJudgment.negative
  | some _ => FrameJudgment.err .attributeError
  | none =>
    match target with
    | Json.str s =>
      let rl := lowerStr (stripStr fr.text)
      let isNegative := (negationPhrases s).any (fun p => strContains rl p)
      if strContains rl (lowerStr s) && !isNegative then
        FrameJudgment.positive (Json.str (stripStr fr.text))
      else
        FrameJudgment.negative
    | _ => FrameJudgment.err .attributeError

/-- The search loop: frames in input order, early exit at the first
positive judgment; the returned index counts from the front. -/
def searchFrom (target : Json) : List FrameResponse → Except PyError (Option (Nat × Json))
  | [] => .ok none
  | fr :: rest =>
    match judgeFrame target fr with
    | .err e => .error e
    | .positive d => .ok (some (0, d))
    | .negative => (searchFrom target rest).map (Option.map (fun p => (p.1 + 1, p.2)))

/-- The "not found" text synthesized by the search (line 249). -/
def searchNotFoundText (target : Json) (durationSeconds : Nat) : String :=
  "I" ++ apos ++ "ve been looking for " ++ toString durationSeconds ++
  " seconds, but I don" ++ apos ++ "t see a " ++ target.display ++
  " yet. Try moving your camera around slowly."

/-- The dict returned by `search_object_in_frames`. -/
structure SearchOutcome where
  found : Bool
  frame_index : Int
  description : Json
  voice_response : Json

/-- `search_object_in_frames(frame_paths, target_object, duration_seconds)`. -/
def search_object_in_frames (frames : List FrameResponse) (target : Json)
    (durationSeconds : Nat) : Except PyError SearchOutcome :=
  match searchFrom target frames with
  | .error e => .error e
  | .ok (some (i, d)) => .ok ⟨true, (i : Int), d, d⟩
  | .ok none =>
    .ok ⟨false, -1, Json.str (searchNotFoundText target durationSeconds),
         Json.str (searchNotFoundText target durationSeconds)⟩

/-! ## IntentRouter (`agent2_vlm_direct.extract_keywords_and_intent`) -/

/-- `dict.setdefault(k, v)`: insert `(k, v)` only when `k` is absent. -/
def setdefault (fields : List (String × Json)) (k : String) (v : Json) :
    List (String × Json) :=
  if (lookupField fields k).isSome then fields else fields ++ [(k, v)]

/-- The fallback dict built when `json.loads` fails (lines 84-89). -/
def fallbackIntentData (transcript : String) : List (String × Json) :=
  [("keywords", Json.arr []), ("intent", Json.str "general"),
   ("target_object", Json.str ""), ("enhanced_query", Json.str transcript)]

/-- The four `setdefault` calls of lines 92-95, in source order. -/
def applySetdefaults (transcript : String) (fields : List (String × Json)) :
    List (String × Json) :=
  setdefault (setdefault (setdefault (setdefault fields
    "keywords" (Json.arr []))
    "intent" (Json.str "general"))
    "target_object" (Json.str ""))
    "enhanced_query" (Json.str transcript)

/-- `extract_keywords_and_intent(transcript)`.  The model call and the
`json.loads` on its content are external: `classified` is `.error e` when
`chain.invoke` itself raises (uncaught — only `json.loads` sits inside the
`try`), `.ok none` when `json.loads` raises, and `.ok (some j)` when it
parses to `j`.  A parsed non-object raises `AttributeError` at
`data.setdefault`, outside the `try`. -/
def extract_keywords_and_intent (transcript : String)
    (classified : Except PyError (Option Json)) :
    Except PyError (List (String × Json)) :=
  match classified with
  | .error e => .error e
  | .ok parseOutcome =>
    match parseOutcome with
    | none => .ok (applySetdefaults transcript (fallbackIntentData transcript))
    | some (Json.obj fields) => .ok (applySetdefaults transcript fields)
    | some _ => .error .attributeError

/-! ## Speech synthesis (`tts.text_to_speech`) -/

/-- `text_to_speech(text, ...)` up to its input validation (lines 21-23):
`ValueError` when the text is empty or all-whitespace.  On a non-string
value, `not text` uses truthiness (so a falsy value still raises
`ValueError`) and `.strip()` on a truthy non-string raises
`AttributeError`. -/
def text_to_speech (text : Json) : Except PyError Unit :=
  match text with
  | .str s => if stripStr s = "" then .error .valueError else .ok ()
  | other => if other.truthy then .error .attributeError else .error .valueError

/-! ## LocalizationGateway (`orchestrator.call_3d_reconstruction_service`) -/

/-- Outcome of the single `httpx` POST: a response with a status code and
the result of `response.json()` on its body (`none` when that raises), or
a transport-level exception.  Everything inside the `try` is caught by the
bare `except Exception`. -/
inductive NetOutcome where
  | response (status : Nat) (body : Option Json)
  | transportError

/-- The fixed mock positions returned when no backend URL is configured
(lines 66-71). -/
def mockPositionData : Json :=
  Json.obj
    [("target_position", Json.obj [("x", Json.num 2), ("y", Json.num 0), ("z", Json.num 3)]),
     ("camera_position", Json.obj [("x", Json.num 0), ("y", Json.num 0), ("z", Json.num 0)]),
     ("camera_orientation", Json.obj [("yaw", Json.num 0), ("pitch", Json.num 0)])]

/-- `call_3d_reconstruction_service(target_object, frame_path)`.  The
backend URL comes from configuration; the network outcome is an explicit
input.  Status 200 returns the parsed body (a `response.json()` failure is
caught and yields `None`); every other status and every raised exception
yields `None`. -/
def call_3d_reconstruction_service (url : String) (targetObject : Json)
    (outcome : NetOutcome) : Option Json :=
  if url = "" then
    some mockPositionData
  else
    match outcome with
    | .response status body => if status = 200 then body else none
    | .transportError => none

/-- Python `k in x` as used by the orchestrator's format check: key test
on dicts, element test on lists, substring test on strings, `TypeError`
otherwise. -/
def jsonContains (j : Json) (k : String) : Except PyError Bool :=
  match j with
  | .obj fields => .ok (lookupField fields k).isSome
  | .arr elems => .ok (elems.any (fun e => e.isStrEq k))
  | .str s => .ok (strContains s k)
  | _ => .error .typeError

/-- The `has_valid_format` check of `process_user_request` (lines
208-213): truthiness of `position_data` then the three required keys,
with Python's short-circuit `and`. -/
def has_valid_format (position_data : Option Json) : Except PyError Bool :=
  match position_data with
  | none => .ok false
  | some pd =>
    if pd.truthy = false then .ok false
    else
      match jsonContains pd "target_position" with
      | .error e => .error e
      | .ok false => .ok false
      | .ok true =>
        match jsonContains pd "camera_position" with
        | .error e => .error e
        | .ok false => .ok false
        | .ok true => jsonContains pd "camera_orientation"

/-! ## PositionGeometry / NavigationPlanner (`agent3_navigation.py`)

Float arithmetic is idealized as real arithmetic. -/

/-- `Position3D`. -/
structure Position3D where
  x : ℝ
  y : ℝ
  z : ℝ

/-- `Orientation` (yaw, pitch) in degrees. -/
structure Orientation where
  yaw : ℝ
  pitch : ℝ

/-- `Position3D.distance_to`. -/
noncomputable def distance_to (a b : Position3D) : ℝ :=
  Real.sqrt ((a.x - b.x) ^ 2 + (a.y - b.y) ^ 2 + (a.z - b.z) ^ 2)

/-- `Position3D.horizontal_distance_to`. -/
noncomputable def horizontal_distance_to (a b : Position3D) : ℝ :=
  Real.sqrt ((a.x - b.x) ^ 2 + (a.z - b.z) ^ 2)

/-- `math.atan2(y, x)`, with value in `[-pi, pi]`, modelled by the
complex argument of `x + y i`. -/
noncomputable def atan2 (y x : ℝ) : ℝ :=
  Complex.arg (x + y * Complex.I)

/-- `math.degrees`. -/
noncomputable def degrees (r : ℝ) : ℝ :=
  r * 180 / Real.pi

open Classical in
/-- `while relative_angle > 180: relative_angle -= 360` (line 82). -/
noncomputable def normPos (x : ℝ) : ℝ :=
  if h : 180 < x then normPos (x - 360) else x
termination_by (⌈(x - 180) / 360⌉).toNat
decreasing_by
  have hx : (0 : ℝ) < (x - 180) / 360 := by
    apply div_pos <;> linarith
  have h1 : (1 : ℤ) ≤ ⌈(x - 180) / 360⌉ := Int.ceil_pos.mpr hx
  have h2 : ⌈(x - 360 - 180) / 360⌉ = ⌈(x - 180) / 360⌉ - 1 := by
    have hdiv : (x - 360 - 180) / 360 = (x - 180) / 360 - 1 := by ring
    rw [hdiv]
    exact_mod_cast Int.ceil_sub_int ((x - 180) / 360) 1
  simp only [h2]
  omega

open Classical in
/-- `while relative_angle < -180: relative_angle += 360` (line 84). -/
noncomputable def normNeg (x : ℝ) : ℝ :=
  if h : x < -180 then normNeg (x + 360) else x
termination_by (⌈(-180 - x) / 360⌉).toNat
decreasing_by
  have hx : (0 : ℝ) < (-180 - x) / 360 := by
    apply div_pos <;> linarith
  have h1 : (1 : ℤ) ≤ ⌈(-180 - x) / 360⌉ := Int.ceil_pos.mpr hx
  have h2 : ⌈(-180 - (x + 360)) / 360⌉ = ⌈(-180 - x) / 360⌉ - 1 := by
    have hdiv : (-180 - (x + 360)) / 360 = (-180 - x) / 360 - 1 := by ring
    rw [hdiv]
    exact_mod_cast Int.ceil_sub_int ((-180 - x) / 360) 1
  simp only [h2]
  omega

/-- The two normalization loops of lines 82-85, in source order. -/
noncomputable def normalizeAngle (x : ℝ) : ℝ :=
  normNeg (normPos x)

open Classical in
/-- The direction classification of lines 88-95. -/
noncomputable def directionOf (relativeAngle : ℝ) : String :=
  if |relativeAngle| < 45 then "forward"
  else if 135 < |relativeAngle| then "behind"
  else if 0 < relativeAngle then "right"
  else "left"

/-- The dict returned by `calculate_navigation_direction`. -/
structure NavMetrics where
  distance : ℝ
  horizontal_distance : ℝ
  vertical_distance : ℝ
  relative_angle : ℝ
  direction : String
  height_diff : ℝ

/-- `calculate_navigation_direction(current_pos, current_orientation,
target_pos)` (lines 47-104). -/
noncomputable def calculate_navigation_direction (currentPos : Position3D)
    (currentOrientation : Orientation) (targetPos : Position3D) : NavMetrics :=
  let totalDistance := distance_to currentPos targetPos
  let horizontalDistance := horizontal_distance_to currentPos targetPos
  let verticalDistance := targetPos.y - currentPos.y
  let angleToTarget := degrees (atan2 (targetPos.x - currentPos.x) (targetPos.z - currentPos.z))
  let relativeAngle := normalizeAngle (angleToTarget - currentOrientation.yaw)
  { distance := totalDistance
    horizontal_distance := horizontalDistance
    vertical_distance := verticalDistance
    relative_angle := relativeAngle
    direction := directionOf relativeAngle
    height_diff := verticalDistance }

open Classical in
/-- Python `int(x)`: truncation toward zero. -/
noncomputable def pyInt (x : ℝ) : ℤ :=
  if 0 ≤ x then ⌊x⌋ else -⌊-x⌋

/-- `steps = int(distance * 1.5)` in `generate_navigation_instructions`
(line 145). -/
noncomputable def steps_for_distance (distance : ℝ) : ℤ :=
  pyInt (distance * 1.5)

/-- The step count that `generate_navigation_instructions` puts into the
model request, computed from `nav_metrics["horizontal_distance"]`
(lines 139, 145). -/
noncomputable def generate_navigation_instructions_steps (navMetrics : NavMetrics) : ℤ :=
  steps_for_distance navMetrics.horizontal_distance

/-- The dict returned by `navigate_to_target` (metrics and the
model-generated instruction text). -/
structure NavResult where
  metrics : NavMetrics
  instructions : String

/-- `navigate_to_target(target_object, current_pos, current_orientation,
target_pos, output_audio_path)`: computes the metrics, obtains the
instruction text from the model (an external input here), and runs
text-to-speech on it — whose input validation can raise. -/
noncomputable def navigate_to_target (currentPos : Position3D)
    (currentOrientation : Orientation) (targetPos : Position3D)
    (instructions : String) : Except PyError NavResult :=
  let navMetrics := calculate_navigation_direction currentPos currentOrientation targetPos
  match text_to_speech (Json.str instructions) with
  | .error e => .error e
  | .ok _ => .ok ⟨navMetrics, instructions⟩

/-! ## RequestOrchestrator (`orchestrator.process_user_request`) -/

/-- Reading one coordinate field of a position sub-object:
`position_data[k]["x"]` and so on. -/
def getNumField (v : Json) (k : String) : Except PyError ℚ :=
  match Json.index v k with
  | .error e => .error e
  | .ok j => jsonNum j

/-- `Position3D(position_data[k]["x"], ...["y"], ...["z"])` (lines
218-222 and 227-231). -/
def getPosition (positionData : Json) (k : String) : Except PyError Position3D :=
  match Json.index positionData k with
  | .error e => .error e
  | .ok v =>
    match getNumField v "x" with
    | .error e => .error e
    | .ok x =>
      match getNumField v "y" with
      | .error e => .error e
      | .ok y =>
        match getNumField v "z" with
        | .error e => .error e
        | .ok z => .ok ⟨(x : ℝ), (y : ℝ), (z : ℝ)⟩

/-- `Orientation(position_data["camera_orientation"]["yaw"], ...["pitch"])`
(lines 223-226). -/
def getOrientation (positionData : Json) (k : String) : Except PyError Orientation :=
  match Json.index positionData k with
  | .error e => .error e
  | .ok v =>
    match getNumField v "yaw" with
    | .error e => .error e
    | .ok yaw =>
      match getNumField v "pitch" with
      | .error e => .error e
      | .ok pitch => .ok ⟨(yaw : ℝ), (pitch : ℝ)⟩

/-- Position extraction plus `navigate_to_target` on the validated
payload (lines 217-242). -/
noncomputable def navFromPositionData (instructions : String) (positionData : Json) :
    Except PyError NavResult :=
  match getPosition positionData "camera_position" with
  | .error e => .error e
  | .ok currentPos =>
    match getOrientation positionData "camera_orientation" with
    | .error e => .error e
    | .ok currentOrientation =>
      match getPosition positionData "target_position" with
      | .error e => .error e
      | .ok targetPos => navigate_to_target currentPos currentOrientation targetPos instructions

/-- The shapes `additional_data` takes in `process_user_request`: the
initial empty dict, the full navigation payload of lines 246-250, the
confirmation-only dict of line 254, and the not-found dict of line 262. -/
inductive AdditionalData where
  | empty
  | foundNav (navigationMetrics : NavMetrics) (positions : Json)
  | foundOnly
  | notFound

/-- Does `additional_data` carry a `navigation_metrics` entry? -/
def AdditionalData.hasNavMetrics : AdditionalData → Bool
  | .foundNav _ _ => true
  | _ => false

/-- The `object_found` entry of `additional_data`, when present. -/
def AdditionalData.objectFound : AdditionalData → Option Bool
  | .empty => none
  | .foundNav _ _ => some true
  | .foundOnly => some true
  | .notFound => some false

/-- The dict returned by `process_user_request` (the audio path is pure
plumbing and is omitted). -/
structure RequestResult where
  intent : Json
  transcript : String
  target_object : Json
  action_taken : String
  response_text : Json
  additional_data : AdditionalData

/-- All external outcomes one orchestration run consumes: the transcript,
the classification call (as in `extract_keywords_and_intent`), the two
scene-analysis responses, the per-frame search judgments (one per entry of
`video_frames`), the navigation-instruction text, the configured backend
URL and the network outcome, and `max_search_duration`. -/
structure OrchestratorEnv where
  transcript : String
  intentCall : Except PyError (Option Json)
  describeResponse : String
  generalResponse : String
  frames : List FrameResponse
  navInstructions : String
  url : String
  netOutcome : NetOutcome
  maxDur : Nat

/-- The fixed describe-path apology text (line 177). -/
def needFrameDescribeText : String := "I need a video frame to describe the scene."

/-- The fixed general-path apology text (line 288). -/
def needFrameGeneralText : String := "I need a video frame to answer your question."

/-- The orchestrator's own not-found text (lines 258-261). -/
def orchestratorNotFoundText (target : Json) (maxDur : Nat) : String :=
  "I" ++ apos ++ "ve been looking for the " ++ target.display ++ " for " ++
  toString maxDur ++ " seconds, but I haven" ++ apos ++
  "t found it yet. Please move your camera around slowly so I can see more of the area."

/-- The `describe` branch (lines 152-177). -/
def describeAction (env : OrchestratorEnv) :
    Except PyError (String × Json × AdditionalData) :=
  match env.frames with
  | [] => .ok ("scene_description", Json.str needFrameDescribeText, AdditionalData.empty)
  | _ :: _ => .ok ("scene_description", Json.str env.describeResponse, AdditionalData.empty)

/-- The `find` branch (lines 179-262): search, then the localization
call, the `has_valid_format` check, and either navigation or the
confirmation fallback.  `action_taken` is set to
`"object_found_navigation"` as soon as the search succeeds (line 194),
before the localization call. -/
noncomputable def findAction (env : OrchestratorEnv) (target : Json) :
    Except PyError (String × Json × AdditionalData) :=
  match search_object_in_frames env.frames target env.maxDur with
  | .error e => .error e
  | .ok searchResult =>
    if searchResult.found then
      let positionData := call_3d_reconstruction_service env.url target env.netOutcome
      match has_valid_format positionData with
      | .error e => .error e
      | .ok true =>
        match positionData with
        | some pd =>
          match navFromPositionData env.navInstructions pd with
          | .error e => .error e
          | .ok navResult =>
            .ok ("object_found_navigation", Json.str navResult.instructions,
                 AdditionalData.foundNav navResult.metrics pd)
        | none =>
          -- dead branch: `has_valid_format none` is `.ok false`
          .ok ("object_found_navigation", searchResult.description, AdditionalData.foundOnly)
      | .ok false =>
        .ok ("object_found_navigation", searchResult.description, AdditionalData.foundOnly)
    else
      .ok ("object_not_found", Json.str (orchestratorNotFoundText target env.maxDur),
           AdditionalData.notFound)

/-- The general-query branch (lines 264-288), also reached by `find`
with a falsy target object. -/
def generalAction (env : OrchestratorEnv) :
    Except PyError (String × Json × AdditionalData) :=
  match env.frames with
  | [] => .ok ("general_query", Json.str needFrameGeneralText, AdditionalData.empty)
  | _ :: _ => .ok ("general_query", Json.str env.generalResponse, AdditionalData.empty)

/-- The dispatch of step 3 (lines 152-288): `describe`, then `find` with
a truthy target object, else the general path. -/
noncomputable def dispatchAction (env : OrchestratorEnv) (intent targetObject : Json) :
    Except PyError (String × Json × AdditionalData) :=
  if intent.isStrEq "describe" then describeAction env
  else if intent.isStrEq "find" && targetObject.truthy then findAction env targetObject
  else generalAction env

/-- `process_user_request(audio_path, video_frames, output_audio_path,
max_search_duration)` (lines 96-309): STT, intent extraction, dispatch,
then text-to-speech on the final response text; any uncaught Python
exception aborts the request. -/
noncomputable def process_user_request (env : OrchestratorEnv) :
    Except PyError RequestResult :=
  match extract_keywords_and_intent env.transcript env.intentCall with
  | .error e => .error e
  | .ok intentData =>
    let intent := (lookupField intentData "intent").getD Json.null
    let targetObject := (lookupField intentData "target_object").getD Json.null
    match dispatchAction env intent targetObject with
    | .error e => .error e
    | .ok (actionTaken, responseText, additionalData) =>
      match text_to_speech responseText with
      | .error e => .error e
      | .ok _ =>
        .ok { intent := intent
              transcript := env.transcript
              target_object := targetObject
              action_taken := actionTaken
              response_text := responseText
              additional_data := additionalData }

/-! ## Comparison definitions and concrete test inputs -/

/-- The five negation phrases as the specification lists them ("don't
see", "not see", "cannot see", "not visible", "no <target>"), written for
comparison with the source's `negationPhrases`. -/
def claimedNegationPhrases (target : String) : List String :=
  ["don" ++ apos ++ "t see", "not see", "cannot see", "not visible", "no " ++ lowerStr target]

/-- Three search frames: a negative heuristic frame, a positive JSON
frame, and a frame whose judgment would raise. -/
def c2Frames : List FrameResponse :=
  [⟨"I do not see it", none⟩,
   ⟨"x", some (Json.obj [("found", Json.bool true), ("description", Json.str "To your right")])⟩,
   ⟨"true", some (Json.bool true)⟩]

/-- The outcome the search yields on `c2Frames`. -/
def c2Outcome : SearchOutcome :=
  ⟨true, 1, Json.str "To your right", Json.str "To your right"⟩

/-- The camera position the orchestrator parses out of the mock payload. -/
noncomputable def mockCameraPosition : Position3D := ⟨0, 0, 0⟩

/-- The camera orientation the orchestrator parses out of the mock payload. -/
noncomputable def mockCameraOrientation : Orientation := ⟨0, 0⟩

/-- The target position the orchestrator parses out of the mock payload. -/
noncomputable def mockTargetPosition : Position3D := ⟨2, 0, 3⟩

/-- A full request environment: intent `find` with target "cup", one
frame with a positive JSON judgment, and no backend URL configured. -/
def envC1 : OrchestratorEnv :=
  { transcript := "find my cup"
    intentCall := Except.ok (some (Json.obj
      [("keywords", Json.arr []), ("intent", Json.str "find"),
       ("target_object", Json.str "cup"), ("enhanced_query", Json.str "find my cup")]))
    describeResponse := "x"
    generalResponse := "x"
    frames := [⟨"j", some (Json.obj
      [("found", Json.bool true), ("description", Json.str "To your right, close by")])⟩]
    navInstructions := "Turn right. Walk five steps."
    url := ""
    netOutcome := NetOutcome.transportError
    maxDur := 5 }

/-- A request environment on the describe path whose scene-analysis model
call returns the empty string. -/
def envC7 : OrchestratorEnv :=
  { transcript := "what is here"
    intentCall := Except.ok (some (Json.obj [("intent", Json.str "describe")]))
    describeResponse := ""
    generalResponse := "x"
    frames := [⟨"j", none⟩]
    navInstructions := "x"
    url := ""
    netOutcome := NetOutcome.transportError
    maxDur := 5 }

/-- The same describe-path environment with a non-empty model response. -/
def envC7ok : OrchestratorEnv :=
  { envC7 with describeResponse := "I see a desk." }

/-- The result the orchestrator produces on `envC7ok`. -/
def c7Result : RequestResult :=
  { intent := Json.str "describe"
    transcript := "what is here"
    target_object := Json.str ""
    action_taken := "scene_description"
    response_text := Json.str "I see a desk."
    additional_data := AdditionalData.empty }

/-! ## Properties of the angle normalization and direction classification -/

theorem normPos_le (x : ℝ) : normPos x ≤ 180 := by
  rw [normPos]
  split
  · exact normPos_le (x - 360)
  · linarith
termination_by (⌈(x - 180) / 360⌉).toNat
decreasing_by
  rename_i h
  have hx : (0 : ℝ) < (x - 180) / 360 := by
    apply div_pos <;> linarith
  have h1 : (1 : ℤ) ≤ ⌈(x - 180) / 360⌉ := Int.ceil_pos.mpr hx
  have h2 : ⌈(x - 360 - 180) / 360⌉ = ⌈(x - 180) / 360⌉ - 1 := by
    have hdiv : (x - 360 - 180) / 360 = (x - 180) / 360 - 1 := by ring
    rw [hdiv]
    exact_mod_cast Int.ceil_sub_int ((x - 180) / 360) 1
  simp only [h2]
  omega

theorem normNeg_ge (x : ℝ) : -180 ≤ normNeg x := by
  rw [normNeg]
  split
  · exact normNeg_ge (x + 360)
  · linarith
termination_by (⌈(-180 - x) / 360⌉).toNat
decreasing_by
  rename_i h
  have hx : (0 : ℝ) < (-180 - x) / 360 := by
    apply div_pos <;> linarith
  have h1 : (1 : ℤ) ≤ ⌈(-180 - x) / 360⌉ := Int.ceil_pos.mpr hx
  have h2 : ⌈(-180 - (x + 360)) / 360⌉ = ⌈(-180 - x) / 360⌉ - 1 := by
    have hdiv : (-180 - (x + 360)) / 360 = (-180 - x) / 360 - 1 := by ring
    rw [hdiv]
    exact_mod_cast Int.ceil_sub_int ((-180 - x) / 360) 1
  simp only [h2]
  omega

theorem normNeg_le (x : ℝ) (hx : x ≤ 180) : normNeg x ≤ 180 := by
  rw [normNeg]
  split
  · rename_i h
    exact normNeg_le (x + 360) (by linarith)
  · exact hx
termination_by (⌈(-180 - x) / 360⌉).toNat
decreasing_by
  rename_i h
  have hx2 : (0 : ℝ) < (-180 - x) / 360 := by
    apply div_pos <;> linarith
  have h1 : (1 : ℤ) ≤ ⌈(-180 - x) / 360⌉ := Int.ceil_pos.mpr hx2
  have h2 : ⌈(-180 - (x + 360)) / 360⌉ = ⌈(-180 - x) / 360⌉ - 1 := by
    have hdiv : (-180 - (x + 360)) / 360 = (-180 - x) / 360 - 1 := by ring
    rw [hdiv]
    exact_mod_cast Int.ceil_sub_int ((-180 - x) / 360) 1
  simp only [h2]
  omega

theorem normalizeAngle_mem (x : ℝ) : -180 ≤ normalizeAngle x ∧ normalizeAngle x ≤ 180 :=
  ⟨normNeg_ge _, normNeg_le _ (normPos_le x)⟩

theorem normPos_fix (x : ℝ) (h : x ≤ 180) : normPos x = x := by
  rw [normPos]
  split
  · rename_i h2
    linarith
  · rfl

theorem normNeg_fix (x : ℝ) (h : -180 ≤ x) : normNeg x = x := by
  rw [normNeg]
  split
  · rename_i h2
    linarith
  · rfl

theorem normalizeAngle_fix (x : ℝ) (h1 : -180 ≤ x) (h2 : x ≤ 180) : normalizeAngle x = x := by
  unfold normalizeAngle
  rw [normPos_fix x h2, normNeg_fix x h1]

theorem atan2_zero_pos (dz : ℝ) (h : 0 < dz) : atan2 0 dz = 0 := by
  unfold atan2
  rw [show ((dz : ℂ) + (0 : ℝ) * Complex.I) = ((dz : ℝ) : ℂ) by push_cast; ring]
  exact Complex.arg_ofReal_of_nonneg h.le

theorem degrees_zero : degrees 0 = 0 := by
  unfold degrees
  ring

theorem directionOf_forward_iff (a : ℝ) : directionOf a = "forward" ↔ |a| < 45 := by
  unfold directionOf
  split_ifs with h1 h2 h3
  · simp [h1]
  · exact iff_of_false (by decide) h1
  · exact iff_of_false (by decide) h1
  · exact iff_of_false (by decide) h1

theorem directionOf_behind_iff (a : ℝ) : directionOf a = "behind" ↔ 135 < |a| := by
  unfold directionOf
  split_ifs with h1 h2 h3
  · exact iff_of_false (by decide) (by intro h; linarith)
  · simp [h2]
  · exact iff_of_false (by decide) h2
  · exact iff_of_false (by decide) h2

theorem directionOf_right_iff (a : ℝ) :
    directionOf a = "right" ↔ 45 ≤ |a| ∧ |a| ≤ 135 ∧ 0 < a := by
  unfold directionOf
  split_ifs with h1 h2 h3
  · exact iff_of_false (by decide) (by rintro ⟨ha, -, -⟩; linarith)
  · exact iff_of_false (by decide) (by rintro ⟨-, hb, -⟩; linarith)
  · exact iff_of_true rfl ⟨not_lt.mp h1, not_lt.mp h2, h3⟩
  · exact iff_of_false (by decide) (by rintro ⟨-, -, hc⟩; exact h3 hc)

theorem directionOf_left_iff (a : ℝ) :
    directionOf a = "left" ↔ 45 ≤ |a| ∧ |a| ≤ 135 ∧ a ≤ 0 := by
  unfold directionOf
  split_ifs with h1 h2 h3
  · exact iff_of_false (by decide) (by rintro ⟨ha, -, -⟩; linarith)
  · exact iff_of_false (by decide) (by rintro ⟨-, hb, -⟩; linarith)
  · exact iff_of_false (by decide) (by rintro ⟨-, -, hc⟩; linarith)
  · exact iff_of_true rfl ⟨not_lt.mp h1, not_lt.mp h2, not_lt.mp h3⟩

theorem calc_direction_consistent (cp : Position3D) (co : Orientation) (tp : Position3D) :
    (calculate_navigation_direction cp co tp).direction =
      directionOf (calculate_navigation_direction cp co tp).relative_angle := rfl

/-- Claim C5, counterexample: with yaw 180 and the target straight ahead
in world coordinates, the normalization loops leave the relative angle at
exactly -180, so the claimed half-open range (-180, 180] is violated. -/
theorem c5_relative_angle_boundary_counterexample :
    (calculate_navigation_direction ⟨0, 0, 0⟩ ⟨180, 0⟩ ⟨0, 0, 1⟩).relative_angle = -180 ∧
      ¬(-180 < (calculate_navigation_direction ⟨0, 0, 0⟩ ⟨180, 0⟩ ⟨0, 0, 1⟩).relative_angle) := by
  have h : (calculate_navigation_direction ⟨0, 0, 0⟩ ⟨180, 0⟩ ⟨0, 0, 1⟩).relative_angle = -180 := by
    simp only [calculate_navigation_direction]
    rw [show (0 : ℝ) - 0 = 0 by ring, show (1 : ℝ) - 0 = 1 by ring,
      atan2_zero_pos 1 one_pos, degrees_zero, show (0 : ℝ) - 180 = -180 by ring]
    exact normalizeAngle_fix (-180) (by norm_num) (by norm_num)
  exact ⟨h, by rw [h]; norm_num⟩

/-- Claim C5 (amended): for every camera position, orientation and target
position the relative angle lies in the closed interval [-180, 180] (the
endpoint -180 is attainable, so the interval is not half-open); for yaw 0
and a target directly ahead (dx = 0, dz > 0) the relative angle is 0 and
the direction is "forward". -/
theorem c5_relative_angle_range :
    (∀ (cp : Position3D) (co : Orientation) (tp : Position3D),
      -180 ≤ (calculate_navigation_direction cp co tp).relative_angle ∧
        (calculate_navigation_direction cp co tp).relative_angle ≤ 180) ∧
    (∀ (cp : Position3D) (co : Orientation) (tp : Position3D),
      co.yaw = 0 → tp.x = cp.x → cp.z < tp.z →
        (calculate_navigation_direction cp co tp).relative_angle = 0 ∧
          (calculate_navigation_direction cp co tp).direction = "forward") := by
  constructor
  · intro cp co tp
    simp only [calculate_navigation_direction]
    exact normalizeAngle_mem _
  · intro cp co tp hyaw hx hz
    have h0 : (calculate_navigation_direction cp co tp).relative_angle = 0 := by
      simp only [calculate_navigation_direction]
      rw [hyaw, hx, sub_self, atan2_zero_pos _ (by linarith), degrees_zero, sub_zero]
      exact normalizeAngle_fix 0 (by norm_num) (by norm_num)
    refine ⟨h0, ?_⟩
    rw [calc_direction_consistent, h0, directionOf_forward_iff, abs_zero]
    norm_num

/-- Witness for `c5_relative_angle_range`: camera at the origin facing
yaw 0, target one unit ahead. -/
theorem c5_relative_angle_range_witness :
    (calculate_navigation_direction ⟨0, 0, 0⟩ ⟨0, 0⟩ ⟨0, 0, 1⟩).relative_angle = 0 ∧
      (calculate_navigation_direction ⟨0, 0, 0⟩ ⟨0, 0⟩ ⟨0, 0, 1⟩).direction = "forward" :=
  c5_relative_angle_range.2 ⟨0, 0, 0⟩ ⟨0, 0⟩ ⟨0, 0, 1⟩ rfl rfl (by norm_num)

/-- Claim C6: the direction field of `calculate_navigation_direction` is
"forward" iff the absolute relative angle is under 45 degrees, "behind"
iff it exceeds 135 degrees, otherwise "right" for a positive and "left"
for a non-positive angle; exactly 45 and exactly 135 degrees fall to the
left/right branch, never to "forward" or "behind". -/
theorem c6_direction_classification :
    (∀ a : ℝ,
      (directionOf a = "forward" ↔ |a| < 45) ∧
      (directionOf a = "behind" ↔ 135 < |a|) ∧
      (directionOf a = "right" ↔ 45 ≤ |a| ∧ |a| ≤ 135 ∧ 0 < a) ∧
      (directionOf a = "left" ↔ 45 ≤ |a| ∧ |a| ≤ 135 ∧ a ≤ 0)) ∧
    directionOf 45 = "right" ∧ directionOf (-45) = "left" ∧
    directionOf 135 = "right" ∧ directionOf (-135) = "left" ∧
    (∀ (cp : Position3D) (co : Orientation) (tp : Position3D),
      (calculate_navigation_direction cp co tp).direction =
        directionOf (calculate_navigation_direction cp co tp).relative_angle) := by
  refine ⟨fun a => ⟨directionOf_forward_iff a, directionOf_behind_iff a,
    directionOf_right_iff a, directionOf_left_iff a⟩, ?_, ?_, ?_, ?_,
    fun cp co tp => calc_direction_consistent cp co tp⟩
  · rw [directionOf_right_iff, abs_of_nonneg (by norm_num : (0 : ℝ) ≤ 45)]
    norm_num
  · rw [directionOf_left_iff, abs_of_nonpos (by norm_num : (-45 : ℝ) ≤ 0)]
    norm_num
  · rw [directionOf_right_iff, abs_of_nonneg (by norm_num : (0 : ℝ) ≤ 135)]
    norm_num
  · rw [directionOf_left_iff, abs_of_nonpos (by norm_num : (-135 : ℝ) ≤ 0)]
    norm_num

/-- Claim C9, counterexample: at distance 0.6 the code's
`int(distance * 1.5)` truncates 0.9 to 0 steps, while rounding to the
nearest integer gives 1; 0 is not a nearest integer to 0.9. -/
theorem c9_truncation_counterexample :
    steps_for_distance ((3 : ℝ) / 5) = 0 ∧
      round (((3 : ℝ) / 5) * 1.5) = 1 ∧
      ¬(|((steps_for_distance ((3 : ℝ) / 5) : ℝ)) - ((3 : ℝ) / 5) * 1.5| ≤ 1 / 2) := by
  have hval : ((3 : ℝ) / 5) * 1.5 = 9 / 10 := by norm_num
  have h0 : steps_for_distance ((3 : ℝ) / 5) = 0 := by
    unfold steps_for_distance pyInt
    rw [hval, if_pos (by norm_num)]
    rw [Int.floor_eq_iff]
    norm_num
  refine ⟨h0, ?_, ?_⟩
  · rw [hval, round_eq, show (9 : ℝ) / 10 + 1 / 2 = 7 / 5 by norm_num,
      Int.floor_eq_iff]
    norm_num
  · rw [h0, hval]
    rw [show |((0 : ℤ) : ℝ) - 9 / 10| = 9 / 10 by rw [abs_of_nonpos] <;> norm_num]
    norm_num

/-- Claim C9 (amended): the step count passed into the
navigation-instruction request is `int(distance * 1.5)`, which for every
non-negative distance is the floor of distance times 1.5 — truncation
toward zero, not rounding to the nearest integer. -/
theorem c9_steps_truncation (d : ℝ) (hd : 0 ≤ d) :
    steps_for_distance d = ⌊d * 1.5⌋ ∧
      ((steps_for_distance d : ℝ) ≤ d * 1.5 ∧ d * 1.5 < steps_for_distance d + 1) := by
  have h15 : (0 : ℝ) ≤ d * 1.5 := by nlinarith
  unfold steps_for_distance pyInt
  rw [if_pos h15]
  exact ⟨rfl, Int.floor_le _, Int.lt_floor_add_one _⟩

/-- Witness for `c9_steps_truncation` at distance 2. -/
theorem c9_steps_truncation_witness :
    (0 : ℝ) ≤ 2 ∧ steps_for_distance 2 = ⌊(2 : ℝ) * 1.5⌋ :=
  ⟨by norm_num, (c9_steps_truncation 2 (by norm_num)).1⟩

/-! ## Properties of the search loop -/

theorem searchFrom_ok_some (target : Json) (frames : List FrameResponse) (i : Nat) (d : Json)
    (h : searchFrom target frames = .ok (some (i, d))) :
    (∃ fr, frames.get? i = some fr ∧ judgeFrame target fr = FrameJudgment.positive d) ∧
    (∀ j, j < i → ∃ fr, frames.get? j = some fr ∧ judgeFrame target fr = FrameJudgment.negative) ∧
    (∀ tail, searchFrom target (frames.take (i + 1) ++ tail) = .ok (some (i, d))) := by
  induction frames generalizing i with
  | nil => simp [searchFrom] at h
  | cons fr rest ih =>
    rw [searchFrom] at h
    cases hj : judgeFrame target fr with
    | err e => rw [hj] at h; simp at h
    | positive d' =>
      rw [hj] at h
      simp only [Except.ok.injEq, Option.some.injEq, Prod.mk.injEq] at h
      obtain ⟨hi, hd⟩ := h
      subst hi; subst hd
      refine ⟨⟨fr, rfl, hj⟩, fun j hj2 => absurd hj2 (Nat.not_lt_zero j), fun tail => ?_⟩
      rw [List.take_succ_cons, List.take_zero, List.cons_append, List.nil_append, searchFrom, hj]
    | negative =>
      rw [hj] at h
      cases hrest : searchFrom target rest with
      | error e => rw [hrest] at h; simp [Except.map] at h
      | ok o =>
        rw [hrest] at h
        cases o with
        | none => simp [Except.map] at h
        | some p =>
          obtain ⟨i', d'⟩ := p
          simp only [Except.map, Option.map, Except.ok.injEq, Option.some.injEq,
            Prod.mk.injEq] at h
          obtain ⟨hi, hd⟩ := h
          subst hd
          obtain ⟨⟨fr2, hget, hpos⟩, hneg, htail⟩ := ih i' hrest
          subst hi
          refine ⟨⟨fr2, by simpa using hget, hpos⟩, ?_, ?_⟩
          · intro j hj2
            cases j with
            | zero => exact ⟨fr, rfl, hj⟩
            | succ j' =>
              obtain ⟨fr3, hg3, hn3⟩ := hneg j' (by omega)
              exact ⟨fr3, by simpa using hg3, hn3⟩
          · intro tail
            rw [List.take_succ_cons, List.cons_append, searchFrom, hj, htail tail]
            rfl

theorem searchFrom_ok_none (target : Json) (frames : List FrameResponse)
    (h : searchFrom target frames = .ok none) :
    ∀ j fr, frames.get? j = some fr → judgeFrame target fr = FrameJudgment.negative := by
  induction frames with
  | nil => intro j fr hget; simp at hget
  | cons f rest ih =>
    rw [searchFrom] at h
    cases hj : judgeFrame target f with
    | err e => rw [hj] at h; simp at h
    | positive d => rw [hj] at h; simp at h
    | negative =>
      rw [hj] at h
      cases hrest : searchFrom target rest with
      | error e => rw [hrest] at h; simp [Except.map] at h
      | ok o =>
        rw [hrest] at h
        cases o with
        | some p => simp [Except.map] at h
        | none =>
          intro j fr hget
          cases j with
          | zero =>
            simp only [List.get?_cons_zero, Option.some.injEq] at hget
            subst hget; exact hj
          | succ j' => exact ih hrest j' fr (by simpa using hget)

theorem searchFrom_err_of (target : Json) (frames : List FrameResponse) (i : Nat)
    (fr : FrameResponse) (e : PyError)
    (hget : frames.get? i = some fr) (hj : judgeFrame target fr = FrameJudgment.err e)
    (hneg : ∀ j fr2, j < i → frames.get? j = some fr2 →
      judgeFrame target fr2 = FrameJudgment.negative) :
    searchFrom target frames = .error e := by
  induction frames generalizing i with
  | nil => simp at hget
  | cons f rest ih =>
    cases i with
    | zero =>
      simp only [List.get?_cons_zero, Option.some.injEq] at hget
      subst hget
      rw [searchFrom, hj]
    | succ i' =>
      have hf : judgeFrame target f = FrameJudgment.negative :=
        hneg 0 f (Nat.succ_pos i') rfl
      rw [searchFrom, hf, ih i' (by simpa using hget)
        (fun j fr2 hlt hg => hneg (j + 1) fr2 (by omega) (by simpa using hg))]
      rfl

theorem searchFrom_append_pos (target : Json) (mid : FrameResponse) (d : Json)
    (hmid : judgeFrame target mid = FrameJudgment.positive d) :
    ∀ (pre tail : List FrameResponse),
      (∀ fr ∈ pre, judgeFrame target fr = FrameJudgment.negative) →
      searchFrom target (pre ++ mid :: tail) = .ok (some (pre.length, d)) := by
  intro pre
  induction pre with
  | nil =>
    intro tail _
    rw [List.nil_append, searchFrom, hmid]
    rfl
  | cons f rest ih =>
    intro tail hneg
    rw [List.cons_append, searchFrom, hneg f (List.mem_cons_self f rest),
      ih tail (fun fr hfr => hneg fr (List.mem_cons_of_mem f hfr))]
    rfl

/-- Claim C2: the search evaluates frames in input order and stops at the
first frame with a positive judgment: a `found = true` result carries the
lowest positive index, every earlier frame judged negative, and the result
is unchanged under any replacement of the frames after the early exit
(those frames are never evaluated); a run that returns `found = false`
carries `frame_index = -1` and evaluated every frame as negative, and a
run over frames with no positive judgment that returns at all returns
`found = false` with `frame_index = -1`. -/
theorem c2_search_first_positive (frames : List FrameResponse) (target : Json) (dur : Nat)
    (r : SearchOutcome) (h : search_object_in_frames frames target dur = .ok r) :
    (r.found = true → ∃ i : Nat, r.frame_index = (i : Int) ∧
      (∃ fr, frames.get? i = some fr ∧ judgeFrame target fr = FrameJudgment.positive r.description) ∧
      (∀ j, j < i → ∃ fr, frames.get? j = some fr ∧ judgeFrame target fr = FrameJudgment.negative) ∧
      (∀ tail, search_object_in_frames (frames.take (i + 1) ++ tail) target dur = .ok r)) ∧
    (r.found = false → r.frame_index = -1 ∧
      ∀ j fr, frames.get? j = some fr → judgeFrame target fr = FrameJudgment.negative) ∧
    ((∀ j fr, frames.get? j = some fr → (judgeFrame target fr).isPositive = false) →
      r.found = false ∧ r.frame_index = -1) := by
  rw [search_object_in_frames] at h
  cases hsf : searchFrom target frames with
  | error e => rw [hsf] at h; simp at h
  | ok o =>
    rw [hsf] at h
    cases o with
    | none =>
      simp only [Except.ok.injEq] at h
      subst h
      refine ⟨fun habs => by simp at habs, fun _ => ⟨rfl, searchFrom_ok_none target frames hsf⟩,
        fun _ => ⟨rfl, rfl⟩⟩
    | some p =>
      obtain ⟨i, d⟩ := p
      simp only [Except.ok.injEq] at h
      subst h
      obtain ⟨⟨fr, hget, hpos⟩, hneg, htail⟩ := searchFrom_ok_some target frames i d hsf
      refine ⟨fun _ => ⟨i, rfl, ⟨fr, hget, hpos⟩, hneg, fun tail => ?_⟩,
        fun habs => by simp at habs, fun hnp => ?_⟩
      · rw [search_object_in_frames, htail tail]
      · exact absurd (hnp i fr hget) (by rw [hpos]; simp [FrameJudgment.isPositive])

/-- Witness for `c2_search_first_positive`: on `c2Frames` the positive
frame has index 1, and replacing everything after it with a junk frame
leaves the result unchanged. -/
theorem c2_search_first_positive_witness :
    search_object_in_frames (c2Frames.take 2 ++ [⟨"boom", none⟩]) (Json.str "cup") 5 =
      .ok c2Outcome := by
  obtain ⟨i, hi, -, -, htail⟩ :=
    (c2_search_first_positive c2Frames (Json.str "cup") 5 c2Outcome rfl).1 rfl
  have h1 : (i : Int) = 1 := hi.symm
  have h2 : i = 1 := by exact_mod_cast h1
  subst h2
  exact htail [⟨"boom", none⟩]

/-- Claim C3, counterexample: the non-JSON judgment "I can't see a cup"
contains none of the five negation phrases the claim lists and does
contain the target name, so the claim predicts a positive match — but the
source's phrase list also holds "can't see", and the code judges the frame
negative. -/
theorem c3_cant_see_counterexample :
    ((claimedNegationPhrases "cup").any
      (fun p => strContains (lowerStr (stripStr ("I can" ++ apos ++ "t see a cup"))) p)) = false ∧
    strContains (lowerStr (stripStr ("I can" ++ apos ++ "t see a cup"))) (lowerStr "cup") = true ∧
    judgeFrame (Json.str "cup") ⟨"I can" ++ apos ++ "t see a cup", none⟩ =
      FrameJudgment.negative :=
  ⟨rfl, rfl, rfl⟩

/-- Claim C3 (amended): on a frame whose judgment fails to parse as JSON,
the heuristic judges the lower-cased stripped text positive exactly when
it contains the lower-cased target and none of the source's seven negation
phrases ("don't see", "do not see", "not see", "cannot see", "can't see",
"no <target>", "not visible" — two more than the claim lists); otherwise
the frame is negative; and a positive heuristic match triggers early exit
at the frame's position. -/
theorem c3_heuristic_fallback :
    (∀ s text : String,
      (judgeFrame (Json.str s) ⟨text, none⟩ = FrameJudgment.positive (Json.str (stripStr text)) ↔
        strContains (lowerStr (stripStr text)) (lowerStr s) = true ∧
          (negationPhrases s).any (fun p => strContains (lowerStr (stripStr text)) p) = false) ∧
      (judgeFrame (Json.str s) ⟨text, none⟩ = FrameJudgment.positive (Json.str (stripStr text)) ∨
        judgeFrame (Json.str s) ⟨text, none⟩ = FrameJudgment.negative)) ∧
    (∀ (s text : String) (pre tail : List FrameResponse) (dur : Nat),
      (∀ fr ∈ pre, judgeFrame (Json.str s) fr = FrameJudgment.negative) →
      judgeFrame (Json.str s) ⟨text, none⟩ = FrameJudgment.positive (Json.str (stripStr text)) →
      search_object_in_frames (pre ++ ⟨text, none⟩ :: tail) (Json.str s) dur =
        .ok ⟨true, (pre.length : Int), Json.str (stripStr text), Json.str (stripStr text)⟩) := by
  constructor
  · intro s text
    constructor
    · rw [judgeFrame]
      simp only
      split_ifs with hcond
      · rw [Bool.and_eq_true, Bool.not_eq_true'] at hcond
        exact iff_of_true rfl hcond
      · rw [Bool.and_eq_true, Bool.not_eq_true'] at hcond
        exact iff_of_false (by simp) hcond
    · rw [judgeFrame]
      simp only
      split_ifs with hcond
      · exact Or.inl rfl
      · exact Or.inr rfl
  · intro s text pre tail dur hneg hpos
    rw [search_object_in_frames, searchFrom_append_pos (Json.str s) ⟨text, none⟩
      (Json.str (stripStr text)) hpos pre tail hneg]

/-- Witness for `c3_heuristic_fallback`: a negative heuristic frame
("no cup here") followed by a positive heuristic frame, followed by a
frame that would raise — the search exits at index 1 with the raw text as
description. -/
theorem c3_heuristic_fallback_witness :
    search_object_in_frames
        ([⟨"no cup here", none⟩] ++ ⟨"The cup is on your left", none⟩ ::
          [⟨"true", some (Json.bool true)⟩]) (Json.str "cup") 5 =
      .ok ⟨true, 1, Json.str "The cup is on your left", Json.str "The cup is on your left"⟩ :=
  c3_heuristic_fallback.2 "cup" "The cup is on your left" [⟨"no cup here", none⟩]
    [⟨"true", some (Json.bool true)⟩] 5
    (by
      intro fr hfr
      simp only [List.mem_singleton] at hfr
      subst hfr
      rfl)
    rfl

/-- Claim C10: a frame whose judgment parses as JSON but not as a JSON
object makes the search raise an uncaught exception (`AttributeError` at
`result.get`) instead of continuing or applying the heuristic — only JSON
decode errors are caught. -/
theorem c10_nonobject_json_raises (frames : List FrameResponse) (target : Json) (dur : Nat)
    (i : Nat) (fr : FrameResponse) (v : Json)
    (hget : frames.get? i = some fr) (hparsed : fr.parsed = some v) (hobj : v.isObj = false)
    (hneg : ∀ j fr2, j < i → frames.get? j = some fr2 →
      judgeFrame target fr2 = FrameJudgment.negative) :
    search_object_in_frames frames target dur = .error PyError.attributeError := by
  obtain ⟨txt, prs⟩ := fr
  have hp : prs = some v := hparsed
  subst hp
  have hj : judgeFrame target ⟨txt, some v⟩ = FrameJudgment.err PyError.attributeError := by
    cases v with
    | obj fields => simp [Json.isObj] at hobj
    | null => rfl
    | bool b => rfl
    | num q => rfl
    | str s => rfl
    | arr elems => rfl
  rw [search_object_in_frames, searchFrom_err_of target frames i ⟨txt, some v⟩
    PyError.attributeError hget hj hneg]

/-- Witness for `c10_nonobject_json_raises`: a single frame whose
judgment is the JSON literal `true`. -/
theorem c10_nonobject_json_raises_witness :
    search_object_in_frames [⟨"true", some (Json.bool true)⟩] (Json.str "cup") 5 =
      .error PyError.attributeError :=
  c10_nonobject_json_raises [⟨"true", some (Json.bool true)⟩] (Json.str "cup") 5 0
    ⟨"true", some (Json.bool true)⟩ (Json.bool true) rfl rfl rfl
    (fun j _ hj _ => absurd hj (Nat.not_lt_zero j))

/-! ## Properties of association-list lookup and setdefault -/

theorem lookupField_append_left (fs l : List (String × Json)) (k : String) (w : Json)
    (h : lookupField fs k = some w) : lookupField (fs ++ l) k = some w := by
  induction fs with
  | nil => simp [lookupField] at h
  | cons p rest ih =>
    obtain ⟨k1, v1⟩ := p
    rw [lookupField] at h
    rw [List.cons_append, lookupField]
    split_ifs with he
    · rw [if_pos he] at h
      exact h
    · rw [if_neg he] at h
      exact ih h

theorem lookupField_append_right (fs l : List (String × Json)) (k : String)
    (h : lookupField fs k = none) : lookupField (fs ++ l) k = lookupField l k := by
  induction fs with
  | nil => rfl
  | cons p rest ih =>
    obtain ⟨k1, v1⟩ := p
    rw [lookupField] at h
    rw [List.cons_append, lookupField]
    split_ifs with he
    · rw [if_pos he] at h
      simp at h
    · rw [if_neg he] at h
      exact ih h

theorem lookupField_setdefault_some (fs : List (String × Json)) (k : String) (v : Json)
    (k' : String) (w : Json) (h : lookupField fs k' = some w) :
    lookupField (setdefault fs k v) k' = some w := by
  unfold setdefault
  split
  · exact h
  · exact lookupField_append_left fs _ k' w h

theorem lookupField_setdefault_other (fs : List (String × Json)) (k : String) (v : Json)
    (k' : String) (hne : k ≠ k') : lookupField (setdefault fs k v) k' = lookupField fs k' := by
  unfold setdefault
  split
  · rfl
  · cases h : lookupField fs k' with
    | some w => exact lookupField_append_left fs _ k' w h
    | none =>
      rw [lookupField_append_right fs _ k' h]
      simp [lookupField, hne]

theorem lookupField_setdefault_self (fs : List (String × Json)) (k : String) (v : Json) :
    lookupField (setdefault fs k v) k = some ((lookupField fs k).getD v) := by
  unfold setdefault
  split
  · rename_i h
    obtain ⟨w, hw⟩ := Option.isSome_iff_exists.mp h
    rw [hw]
    rfl
  · rename_i h
    have hn : lookupField fs k = none := Option.not_isSome_iff_eq_none.mp h
    rw [lookupField_append_right fs _ k hn, hn, lookupField, if_pos rfl]
    rfl

theorem lookupField_applySetdefaults_intent (t : String) (fs : List (String × Json)) :
    lookupField (applySetdefaults t fs) "intent" =
      some ((lookupField fs "intent").getD (Json.str "general")) := by
  unfold applySetdefaults
  rw [lookupField_setdefault_other _ _ _ _ (by decide),
    lookupField_setdefault_other _ _ _ _ (by decide),
    lookupField_setdefault_self,
    lookupField_setdefault_other _ _ _ _ (by decide)]

theorem lookupField_applySetdefaults_target (t : String) (fs : List (String × Json)) :
    lookupField (applySetdefaults t fs) "target_object" =
      some ((lookupField fs "target_object").getD (Json.str "")) := by
  unfold applySetdefaults
  rw [lookupField_setdefault_other _ _ _ _ (by decide),
    lookupField_setdefault_self,
    lookupField_setdefault_other _ _ _ _ (by decide),
    lookupField_setdefault_other _ _ _ _ (by decide)]

/-- Claim C8, counterexample: a well-formed classification output with
intent "navigate" is passed through unvalidated, so the returned intent is
not one of describe, find, general. -/
theorem c8_intent_passthrough_counterexample :
    (extract_keywords_and_intent "hello"
        (.ok (some (Json.obj [("intent", Json.str "navigate")])))).map
      (fun d => (lookupField d "intent").getD Json.null) = .ok (Json.str "navigate") ∧
    Json.str "navigate" ≠ Json.str "describe" ∧
    Json.str "navigate" ≠ Json.str "find" ∧
    Json.str "navigate" ≠ Json.str "general" := by
  refine ⟨rfl, ?_, ?_, ?_⟩ <;> simp

/-- Claim C8 (amended): an unparsable classification output falls back
silently to exactly `intent="general"`, `target_object=""`,
`enhanced_query=transcript`, `keywords=[]`; a parsed JSON object is passed
through with missing fields defaulted (so the intent is whatever the model
returned, not restricted to the three values); a parsed non-object raises
`AttributeError` at `setdefault`, and a failure of the underlying call
propagates uncaught. -/
theorem c8_intent_router_fallback :
    (∀ transcript : String,
      extract_keywords_and_intent transcript (.ok none) = .ok (fallbackIntentData transcript)) ∧
    (∀ (transcript : String) (fields : List (String × Json)),
      extract_keywords_and_intent transcript (.ok (some (Json.obj fields))) =
        .ok (applySetdefaults transcript fields) ∧
      lookupField (applySetdefaults transcript fields) "intent" =
        some ((lookupField fields "intent").getD (Json.str "general"))) ∧
    (∀ (transcript : String) (v : Json), v.isObj = false →
      extract_keywords_and_intent transcript (.ok (some v)) = .error PyError.attributeError) ∧
    (∀ (transcript : String) (e : PyError),
      extract_keywords_and_intent transcript (.error e) = .error e) := by
  refine ⟨fun transcript => rfl,
    fun transcript fields => ⟨rfl, lookupField_applySetdefaults_intent transcript fields⟩,
    fun transcript v hv => ?_, fun transcript e => rfl⟩
  cases v with
  | obj fields => simp [Json.isObj] at hv
  | null => rfl
  | bool b => rfl
  | num q => rfl
  | str s => rfl
  | arr elems => rfl

/-- Witness for `c8_intent_router_fallback`: the JSON literal `true` as
classification output raises. -/
theorem c8_intent_router_fallback_witness :
    extract_keywords_and_intent "hi" (.ok (some (Json.bool true))) =
      .error PyError.attributeError :=
  c8_intent_router_fallback.2.2.1 "hi" (Json.bool true) rfl

/-! ## Properties of the localization gateway -/

theorem has_valid_format_obj (fields : List (String × Json)) :
    has_valid_format (some (Json.obj fields)) =
      .ok (!fields.isEmpty && (lookupField fields "target_position").isSome &&
        (lookupField fields "camera_position").isSome &&
        (lookupField fields "camera_orientation").isSome) := by
  rw [has_valid_format]
  split_ifs with ht
  · have he : fields.isEmpty = true := by
      simpa [Json.truthy] using ht
    rw [he]
    rfl
  · have he : fields.isEmpty = false := by
      cases hh : fields.isEmpty
      · rfl
      · exact absurd (by simpa [Json.truthy] using hh) ht
    simp only [jsonContains, he, Bool.not_false, Bool.true_and]
    cases h1 : (lookupField fields "target_position").isSome
    · rfl
    · cases h2 : (lookupField fields "camera_position").isSome
      · rfl
      · rfl

/-- Claim C4: the gateway returns the fixed deterministic mock exactly on
the no-URL configuration (for every network outcome); with a URL
configured it returns the parsed body on status 200 and `None` on any
other status, on a transport error, and on an unparsable body — it is a
total function, so no exception escapes and no retry happens; and a
payload missing any of the three required keys fails the orchestrator's
format check, which skips navigation. -/
theorem c4_localization_gateway :
    (∀ (t : Json) (o : NetOutcome), call_3d_reconstruction_service "" t o = some mockPositionData) ∧
    (∀ (url : String) (t : Json) (s : Nat) (body : Option Json), url ≠ "" →
      call_3d_reconstruction_service url t (.response s body) =
        if s = 200 then body else none) ∧
    (∀ (url : String) (t : Json), url ≠ "" →
      call_3d_reconstruction_service url t .transportError = none) ∧
    has_valid_format none = .ok false ∧
    (∀ fields : List (String × Json),
      (lookupField fields "target_position" = none ∨
       lookupField fields "camera_position" = none ∨
       lookupField fields "camera_orientation" = none) →
      has_valid_format (some (Json.obj fields)) = .ok false) := by
  refine ⟨fun t o => ?_, fun url t s body hurl => ?_, fun url t hurl => ?_, rfl,
    fun fields hmiss => ?_⟩
  · rw [call_3d_reconstruction_service.eq_def, if_pos rfl]
  · rw [call_3d_reconstruction_service.eq_def, if_neg hurl]
  · rw [call_3d_reconstruction_service.eq_def, if_neg hurl]
  · rcases hmiss with h | h | h <;> simp [has_valid_format_obj, h]

/-- Witness for `c4_localization_gateway`: a configured URL with a 500
status and with a transport error, and a payload missing
`camera_orientation`. -/
theorem c4_localization_gateway_witness :
    call_3d_reconstruction_service "http://backend" (Json.str "cup") (.response 500 none) = none ∧
    call_3d_reconstruction_service "http://backend" (Json.str "cup") .transportError = none ∧
    has_valid_format (some (Json.obj
      [("target_position", Json.obj [("x", Json.num 1), ("y", Json.num 1), ("z", Json.num 1)]),
       ("camera_position", Json.obj [("x", Json.num 0), ("y", Json.num 0), ("z", Json.num 0)])])) =
      .ok false :=
  ⟨by rw [c4_localization_gateway.2.1 "http://backend" (Json.str "cup") 500 none (by decide)]
      rfl,
   c4_localization_gateway.2.2.1 "http://backend" (Json.str "cup") (by decide),
   c4_localization_gateway.2.2.2.2 _ (Or.inr (Or.inr rfl))⟩

/-! ## Properties of the orchestrator -/

theorem getPosition_mock_camera :
    getPosition mockPositionData "camera_position" = .ok mockCameraPosition := by
  simp [getPosition, mockPositionData, Json.index, lookupField, getNumField, jsonNum,
    mockCameraPosition]

theorem getOrientation_mock :
    getOrientation mockPositionData "camera_orientation" = .ok mockCameraOrientation := by
  simp [getOrientation, mockPositionData, Json.index, lookupField, getNumField, jsonNum,
    mockCameraOrientation]

theorem getPosition_mock_target :
    getPosition mockPositionData "target_position" = .ok mockTargetPosition := by
  simp [getPosition, mockPositionData, Json.index, lookupField, getNumField, jsonNum,
    mockTargetPosition]

theorem navFromPositionData_mock (instructions : String) (h : stripStr instructions ≠ "") :
    navFromPositionData instructions mockPositionData =
      .ok ⟨calculate_navigation_direction mockCameraPosition mockCameraOrientation
        mockTargetPosition, instructions⟩ := by
  rw [navFromPositionData, getPosition_mock_camera, getOrientation_mock,
    getPosition_mock_target]
  simp only [navigate_to_target, text_to_speech]
  rw [if_neg h]

/-- Claim C1, counterexample: on a found object with no backend URL
configured, the mock passes validation, so the run reaches
`action_taken = "object_found_navigation"` with navigation metrics in
`additional_data`, and the response text is the generated navigation
instruction, not the search description. -/
theorem c1_no_url_mock_navigation_counterexample :
    (process_user_request envC1).map RequestResult.action_taken =
      .ok "object_found_navigation" ∧
    (process_user_request envC1).map (fun r => r.additional_data.hasNavMetrics) = .ok true ∧
    (process_user_request envC1).map RequestResult.response_text ≠
      .ok (Json.str "To your right, close by") := by
  refine ⟨rfl, rfl, ?_⟩
  intro h
  have hr : (process_user_request envC1).map RequestResult.response_text =
      Except.ok (Json.str "Turn right. Walk five steps.") := rfl
  rw [hr] at h
  simp at h

/-- Claim C1 (amended): with intent `find`, a non-empty target, a frame
where the object is found, and no backend URL configured, the gateway
returns the mock payload, which passes validation, so navigation runs:
`action_taken = "object_found_navigation"`, `response_text` is the
generated navigation instruction text, and `additional_data` carries
`object_found: true` together with the navigation metrics computed from
the mock positions — the confirmation fallback is not taken. -/
theorem c1_no_url_runs_navigation (env : OrchestratorEnv) (fields : List (String × Json))
    (s : String) (sr : SearchOutcome)
    (hcall : env.intentCall = .ok (some (Json.obj fields)))
    (hintent : lookupField fields "intent" = some (Json.str "find"))
    (htarget : lookupField fields "target_object" = some (Json.str s))
    (hs : s ≠ "")
    (hsearch : search_object_in_frames env.frames (Json.str s) env.maxDur = .ok sr)
    (hfound : sr.found = true)
    (hurl : env.url = "")
    (hnav : stripStr env.navInstructions ≠ "") :
    process_user_request env = .ok
      { intent := Json.str "find"
        transcript := env.transcript
        target_object := Json.str s
        action_taken := "object_found_navigation"
        response_text := Json.str env.navInstructions
        additional_data := AdditionalData.foundNav
          (calculate_navigation_direction mockCameraPosition mockCameraOrientation
            mockTargetPosition) mockPositionData } := by
  have h1 : lookupField (applySetdefaults env.transcript fields) "intent" =
      some (Json.str "find") := by
    rw [lookupField_applySetdefaults_intent, hintent]
    rfl
  have h2 : lookupField (applySetdefaults env.transcript fields) "target_object" =
      some (Json.str s) := by
    rw [lookupField_applySetdefaults_target, htarget]
    rfl
  have htr : (Json.str s).truthy = true := bne_iff_ne.mpr hs
  have hfind : findAction env (Json.str s) = .ok ("object_found_navigation",
      Json.str env.navInstructions,
      AdditionalData.foundNav (calculate_navigation_direction mockCameraPosition
        mockCameraOrientation mockTargetPosition) mockPositionData) := by
    rw [findAction.eq_def, hsearch]
    simp only [hfound, if_true]
    rw [call_3d_reconstruction_service.eq_def, if_pos hurl]
    simp only [show has_valid_format (some mockPositionData) = .ok true from rfl]
    rw [navFromPositionData_mock env.navInstructions hnav]
  have htts : text_to_speech (Json.str env.navInstructions) = .ok () := by
    simp only [text_to_speech]
    rw [if_neg hnav]
  rw [process_user_request.eq_def, hcall]
  simp only [extract_keywords_and_intent, h1, h2, Option.getD_some, dispatchAction,
    show (Json.str "find").isStrEq "describe" = false from rfl,
    show (Json.str "find").isStrEq "find" = true from rfl, htr, Bool.and_self,
    Bool.false_eq_true, if_false, if_true, hfind, htts]

/-- Witness for `c1_no_url_runs_navigation` on `envC1`. -/
theorem c1_no_url_runs_navigation_witness :
    process_user_request envC1 = .ok
      { intent := Json.str "find"
        transcript := envC1.transcript
        target_object := Json.str "cup"
        action_taken := "object_found_navigation"
        response_text := Json.str envC1.navInstructions
        additional_data := AdditionalData.foundNav
          (calculate_navigation_direction mockCameraPosition mockCameraOrientation
            mockTargetPosition) mockPositionData } :=
  c1_no_url_runs_navigation envC1
    [("keywords", Json.arr []), ("intent", Json.str "find"),
     ("target_object", Json.str "cup"), ("enhanced_query", Json.str "find my cup")]
    "cup" ⟨true, 0, Json.str "To your right, close by", Json.str "To your right, close by"⟩
    rfl rfl rfl (by decide) rfl rfl rfl (by decide)

/-- Claim C7, counterexample: on the describe path with a frame present,
an empty scene-analysis model response becomes the response text, and the
synthesis input validation raises `ValueError`, aborting the request —
the dispatch rules do not guarantee non-empty text on model-backed
branches. -/
theorem c7_empty_model_text_counterexample :
    process_user_request envC7 = .error PyError.valueError := rfl

/-- Claim C7 (amended): synthesis is invoked on the final response text
on every path — any run that returns a result passed the synthesis input
validation on its `response_text` — and the fixed fallback texts (the two
"need a frame" texts and both not-found texts) are non-blank; but text
that comes from a model call or a search description is passed through
unvalidated, so an empty model output reaches synthesis and fails the
request. -/
theorem c7_synthesis_gate :
    (∀ (env : OrchestratorEnv) (r : RequestResult),
      process_user_request env = .ok r → text_to_speech r.response_text = .ok ()) ∧
    text_to_speech (Json.str needFrameDescribeText) = .ok () ∧
    text_to_speech (Json.str needFrameGeneralText) = .ok () ∧
    text_to_speech (Json.str (orchestratorNotFoundText (Json.str "banana") 5)) = .ok () ∧
    text_to_speech (Json.str (searchNotFoundText (Json.str "banana") 5)) = .ok () := by
  refine ⟨?_, rfl, rfl, rfl, rfl⟩
  intro env r h
  rw [process_user_request.eq_def] at h
  split at h
  · exact absurd h (by simp)
  · dsimp only at h
    split at h
    · exact absurd h (by simp)
    · split at h
      · exact absurd h (by simp)
      · rename_i ht
        simp only [Except.ok.injEq] at h
        subst h
        exact ht

/-- Witness for `c7_synthesis_gate` on `envC7ok`. -/
theorem c7_synthesis_gate_witness :
    process_user_request envC7ok = .ok c7Result ∧
      text_to_speech c7Result.response_text = .ok () :=
  ⟨rfl, c7_synthesis_gate.1 envC7ok c7Result rfl⟩

end SecondEye
